import Mathlib

/-!
Verification of the didcomm-ai-bridge agent orchestration core.

The definitions below are a shallow embedding of the Rust sources:
* `src/agents/state_management/mod.rs` — the conversation state store
  (`ChatChannelState`, the per-owner channel-state map);
* `src/chat_messages.rs` — `send_message`, `i_am_thinking`, `handle_message`
  (connection-setup and chat-message branches) and `handle_prompt`
  (the streaming-response chunker loop);
* `src/agents/model.rs` — the model worker receive loop;
* `src/agents/concierge/concierge_handler.rs` — the concierge (supervisor)
  loop and its shutdown sequence.

Machine integers (`u64` counters) are modelled as `Nat` with explicit
reduction modulo `2 ^ 64` at each increment (Rust release-mode wrapping).
Panics (`unwrap` on `None`) are modelled by `Option`: a `none` result means
the Rust code panics.  Externally visible side effects (sending a DIDComm
message, deleting a consumed message, invoking the generation backend) are
reified as action lists.
-/

/-- Modulus of the Rust `u64` type. -/
def u64Mod : Nat := 2 ^ 64

/-- Rust `ChatChannelState` (state_management/mod.rs lines 48-58).
`seq_no` and `activity_seq_no` are `u64` counters, `Default` gives 0. -/
structure ChatChannelState where
  remote_did : String
  remote_did_hash : String
  activity_seq_no : Nat
  seq_no : Nat
deriving Repr, DecidableEq

/-- Rust `Default::default()` for `ChatChannelState`: empty strings, zero counters. -/
def ChatChannelState.default : ChatChannelState :=
  { remote_did := "", remote_did_hash := "", activity_seq_no := 0, seq_no := 0 }

/-- The per-owner channel-state map (`HashMap<String, ChatChannelState>` in
`OllamaModel.channel_state` / `ConciergeState.channel_state`), modelled as a
lookup function from key to optional record. -/
def ChannelMap : Type := String → Option ChatChannelState

/-- `HashMap::insert`: later insertions shadow earlier ones at the same key. -/
def mapInsert (m : ChannelMap) (k : String) (v : ChatChannelState) : ChannelMap :=
  fun q => if q = k then some v else m q

/-- `HashMap::remove`. -/
def mapRemove (m : ChannelMap) (k : String) : ChannelMap :=
  fun q => if q = k then none else m q

/-- The empty channel-state map. -/
def mapEmpty : ChannelMap := fun _ => none

/-- The state transition and returned value of `send_message`
(chat_messages.rs lines 390-399): look the record up under the SHA256 hash of
the destination DID, `unwrap` it (`none` here = Rust panic), read `seq_no`,
store `seq_no + 1` back.  The returned `Nat` is the `seqNo` attached to the
outbound chat message. -/
def send_message_seq (digest : String → String) (m : ChannelMap) (to_did : String) :
    Option (Nat × ChannelMap) :=
  match m (digest to_did) with
  | none => none
  | some st =>
      some (st.seq_no,
        mapInsert m (digest to_did) { st with seq_no := (st.seq_no + 1) % u64Mod })

/-- The state transition and returned value of `i_am_thinking`
(chat_messages.rs lines 511-520): identical contract on `activity_seq_no`. -/
def i_am_thinking_seq (digest : String → String) (m : ChannelMap) (to_did : String) :
    Option (Nat × ChannelMap) :=
  match m (digest to_did) with
  | none => none
  | some st =>
      some (st.activity_seq_no,
        mapInsert m (digest to_did)
          { st with activity_seq_no := (st.activity_seq_no + 1) % u64Mod })

/-- `n` consecutive calls of `send_message` to the same destination, collecting
the `seqNo` attached to each outbound message in send order.  `none` if any
call panics (missing record). -/
def sendN (digest : String → String) (m : ChannelMap) (to_did : String) :
    Nat → Option (List Nat × ChannelMap)
  | 0 => some ([], m)
  | n + 1 =>
    match send_message_seq digest m to_did with
    | none => none
    | some (s, m') =>
      match sendN digest m' to_did n with
      | none => none
      | some (l, m'') => some (s :: l, m'')

/-- The connection-setup state update of the model worker
(chat_messages.rs lines 112-125): remove the record keyed by the hash of the
old sender DID, insert a fresh record (all counters from `Default`, i.e. 0)
keyed by the hash of the newly negotiated DID. -/
def worker_connection_setup (digest : String → String) (m : ChannelMap)
    (from_did new_did : String) : ChannelMap :=
  let m1 := mapRemove m (digest from_did)
  mapInsert m1 (digest new_did)
    { ChatChannelState.default with
        remote_did := new_did, remote_did_hash := digest new_did }

/-- The concierge handler's treatment of an inbound connection-setup message
(concierge_handler.rs lines 154-193): first the generic lazy insertion of a
record for the sender if absent (lines 154-164), then the same
remove-old/insert-fresh replacement as the worker (lines 172-193). -/
def concierge_connection_setup (digest : String → String) (m : ChannelMap)
    (from_did new_did : String) : ChannelMap :=
  let m1 :=
    match m (digest from_did) with
    | some _ => m
    | none =>
        mapInsert m (digest from_did)
          { ChatChannelState.default with
              remote_did := from_did, remote_did_hash := digest from_did }
  worker_connection_setup digest m1 from_did new_did

/-- Rust `str::contains(pat)` on the underlying character list: some suffix of
the haystack starts with the pattern (the empty pattern is always found). -/
def listContainsSub (pat : List Char) : List Char → Bool
  | [] => pat.isEmpty
  | c :: t => pat.isPrefixOf (c :: t) || listContainsSub pat t

/-- Rust `str::contains` on `String`s. -/
def rustContains (s pat : String) : Bool :=
  listContainsSub pat.toList s.toList

/-- The thinking end-marker checked by the chunker (chat_messages.rs line 355). -/
def thinkEndMarker : String := "</think>"

/-- The text of the timed-out chat message (chat_messages.rs line 330). -/
def timeoutText : String := "Timeout: I'm sorry, I'm taking too long to respond"

/-- Externally visible sends of the chunker loop, in order:
a chat message with the given text (`send_message`), a typing-activity signal
(`i_am_thinking`) or a presence reply (`handle_presence`). -/
inductive Effect where
  | chat (text : String)
  | activity
  | presence
deriving Repr, DecidableEq

/-- Mutable state of the `handle_prompt` loop: the `think_flag` (`true` while
the reasoning preamble is being suppressed) and the accumulation buffer
`output`. -/
structure PromptState where
  think_flag : Bool
  output : String
deriving Repr, DecidableEq

/-- Initial chunker state (chat_messages.rs lines 315-316). -/
def promptInit : PromptState := { think_flag := true, output := "" }

/-- The body of the per-fragment `for ele in res` loop
(chat_messages.rs lines 340-359).  While `think_flag` is set the fragment is
never appended; the two `continue` branches (bare paragraph break dropped,
terminator-plus-break flushed) skip the marker check, which is harmless since
they run only when `think_flag` is already false. -/
def processFragment (st : PromptState) (frag : String) : PromptState × List Effect :=
  if st.think_flag then
    ({ st with
        think_flag := if rustContains frag thinkEndMarker then false else st.think_flag },
      [])
  else if frag = "\n\n" then (st, [])
  else if frag = ".\n\n" then
    ({ st with output := "" }, [Effect.chat (st.output ++ frag)])
  else
    let st1 := { st with output := st.output ++ frag }
    ({ st1 with
        think_flag := if rustContains frag thinkEndMarker then false else st1.think_flag },
      [])

/-- One `Some(Ok(res))` stream item carries a batch of fragments, processed in
order. -/
def processFragments (st : PromptState) : List String → PromptState × List Effect
  | [] => (st, [])
  | f :: rest =>
    let (st1, e1) := processFragment st f
    let (st2, e2) := processFragments st1 rest
    (st2, e1 ++ e2)

/-- One wake-up of the `select!` in `handle_prompt` (chat_messages.rs
lines 327-371): the idle timeout fires, the 3-second typing interval ticks,
or the generation stream yields a batch, an error, or ends. -/
inductive PromptEvent where
  | timeout
  | tick
  | fragments (batch : List String)
  | streamError
  | streamEnd
deriving Repr, DecidableEq

/-- The `handle_prompt` select loop over a sequence of wake-ups, stopping at
the first event that `break`s (timeout, stream error, stream end).  The
timeout branch sends the timed-out chat message before breaking; a tick sends
a typing-activity signal and a presence reply. -/
def runLoop (st : PromptState) : List PromptEvent → PromptState × List Effect
  | [] => (st, [])
  | e :: rest =>
    match e with
    | .timeout => (st, [Effect.chat timeoutText])
    | .tick =>
      let (st1, effs) := runLoop st rest
      (st1, Effect.activity :: Effect.presence :: effs)
    | .fragments batch =>
      let (st1, e1) := processFragments st batch
      let (st2, e2) := runLoop st1 rest
      (st2, e1 ++ e2)
    | .streamError => (st, [])
    | .streamEnd => (st, [])

/-- Whole-run model of `handle_prompt` (chat_messages.rs lines 315-377): the
opening `i_am_thinking` call, the select loop, and the unconditional final
`send_message(output)` after the loop — it runs on every exit path, including
after the timeout branch. -/
def handle_prompt (events : List PromptEvent) : List Effect :=
  let (st, effs) := runLoop promptInit events
  Effect.activity :: (effs ++ [Effect.chat st.output])

/-- The chat messages among a list of effects, in order. -/
def chatsOf (effs : List Effect) : List Effect :=
  effs.filter (fun e => match e with | Effect.chat _ => true | _ => false)

/-- Externally visible steps of the chat-message branch of `handle_message`
(chat_messages.rs lines 136-176): the delivery acknowledgement, a direct chat
reply (`send_message`), routing to the command table (`handle_command`),
invoking the generation backend (`handle_prompt`), and the reported
body-parse failure. -/
inductive HandlerAction where
  | ackDelivered
  | sendChat (to_did : String) (text : String)
  | invokeCommand (text : String)
  | invokeBackend (prompt : String)
  | parseErrorReported
deriving Repr, DecidableEq

/-- The fixed attachments-unsupported reply text (chat_messages.rs line 153). -/
def attachmentsReply : String :=
  "Unfortunately I can't handle attachments yet.. Hopefully one day I will be able to!"

/-- The chat-message branch of `handle_message` (chat_messages.rs
lines 136-176).  `body_text` is the result of parsing the body into
`ChatMessage` (`none` = serde parse failure); `attachments_some` is
`message.attachments.is_some()`.  The acknowledgement is sent before the body
is parsed; an attachment causes the fixed reply and an early return before
either the command table or the generation backend is reached. -/
def handle_chat_message (from_did : String) (body_text : Option String)
    (attachments_some : Bool) : List HandlerAction :=
  HandlerAction.ackDelivered ::
    match body_text with
    | some text =>
      if attachments_some then [HandlerAction.sendChat from_did attachmentsReply]
      else if text.startsWith "/" then [HandlerAction.invokeCommand text]
      else [HandlerAction.invokeBackend text]
    | none => [HandlerAction.parseErrorReported]

/-- Externally visible steps of the model worker's live-channel branch
(model.rs lines 117-150): skipping a message with a warning, dispatching it
to `handle_message` (whose success/failure is recorded but ignored by the
loop), and deleting the consumed message from the transport. -/
inductive WorkerAction where
  | warnSkip
  | dispatchMessage (handler_ok : Bool)
  | deleteFromTransport
deriving Repr, DecidableEq

/-- The fields of an inbound live-channel message that the worker's receive
loop inspects: `message.from` and `message.to`. -/
structure LiveMessage where
  from_did : Option String
  to_dids : Option (List String)
deriving Repr, DecidableEq

/-- The `Some(boxed_data) = direct_rx.recv()` arm of `ModelAgent::run`
(model.rs lines 117-150).  A missing sender is skipped with a warning; then a
channel-state record is lazily inserted for the sender; then
`message.to.as_ref().unwrap().first().unwrap()` runs — `none` here models the
panic when `to` is absent or empty; an unknown destination profile is skipped
with a warning; otherwise the message is dispatched (`handler_ok` is the
ignored result of `handle_message`) and then deleted from the transport. -/
def model_worker_receive (digest : String → String) (channel : ChannelMap)
    (activated : List String) (msg : LiveMessage) (handler_ok : Bool) :
    Option (ChannelMap × List WorkerAction) :=
  match msg.from_did with
  | none => some (channel, [WorkerAction.warnSkip])
  | some from_did =>
    let from_hash := digest from_did
    let channel1 :=
      match channel from_hash with
      | some _ => channel
      | none =>
          mapInsert channel from_hash
            { ChatChannelState.default with
                remote_did := from_did, remote_did_hash := from_hash }
    match msg.to_dids with
    | none => none
    | some [] => none
    | some (to_did :: _) =>
      if activated.contains to_did then
        some (channel1,
          [WorkerAction.dispatchMessage handler_ok, WorkerAction.deleteFromTransport])
      else
        some (channel1, [WorkerAction.warnSkip])

/-- The interrupt reasons of the termination module (declared in lib.rs as
`pub mod termination`; variants as matched in main.rs lines 181-183). -/
inductive Interrupted where
  | userInt
  | osSigInt
  | systemError
deriving Repr, DecidableEq

/-- One wake-up of the concierge `select!` loop (concierge_handler.rs
lines 109-228): a model-to-concierge action (logged only), the `Exit`
command, a `StartModel` command (`configured` records whether the model name
is present in the shared configuration), an inbound direct message (which
never touches the worker registry), or an external interrupt. -/
inductive ConciergeEvent where
  | modelAction
  | commandExit
  | commandStartModel (name : String) (configured : Bool)
  | inboundMessage
  | interrupt (reason : Interrupted)
deriving Repr, DecidableEq

/-- Key-set effect of `models.insert(model_name, ...)` on the worker registry
(`HashMap<String, Model>`): inserting an existing key replaces its value and
leaves the key set unchanged. -/
def registryInsert (reg : List String) (name : String) : List String :=
  if reg.contains name then reg else name :: reg

/-- The concierge select loop (concierge_handler.rs lines 109-228), tracking
the worker registry's key set: `StartModel` of a configured model registers a
worker; `Exit` breaks with `Interrupted::UserInt` (after broadcasting the
termination signal); an external interrupt breaks with its reason; every
other arm continues the loop. -/
def conciergeLoop (reg : List String) :
    List ConciergeEvent → List String × Option Interrupted
  | [] => (reg, none)
  | e :: rest =>
    match e with
    | .modelAction => conciergeLoop reg rest
    | .commandExit => (reg, some Interrupted.userInt)
    | .commandStartModel name configured =>
        conciergeLoop (if configured then registryInsert reg name else reg) rest
    | .inboundMessage => conciergeLoop reg rest
    | .interrupt r => (reg, some r)

/-- Shutdown-relevant actions of `Concierge::run`: sending `ModelAction::Exit`
to a registered worker and saving the shared state to config.json. -/
inductive ConciergeAction where
  | sendExitTo (worker : String)
  | saveState
deriving Repr, DecidableEq

/-- Events of the `handle_prompt` select loop that do not `break` it:
interval ticks and stream batches. -/
def nonBreaking : PromptEvent → Bool
  | PromptEvent.tick => true
  | PromptEvent.fragments _ => true
  | _ => false

/-- Whole-run model of `Concierge::run` (concierge_handler.rs lines 109-239):
run the select loop; if it breaks (Exit command or interrupt), send
`ModelAction::Exit` to every worker in the registry, then save the state,
then return the interrupt reason.  `none` models a loop that has not
terminated on the given trace. -/
def concierge_run (events : List ConciergeEvent) :
    Option (List ConciergeAction × Interrupted) :=
  match conciergeLoop [] events with
  | (_, none) => none
  | (reg, some r) =>
      some (reg.map ConciergeAction.sendExitTo ++ [ConciergeAction.saveState], r)

/-- Helper for C1: from any record with in-range counter, `n` sends return the
consecutive values starting at the current counter, and leave the counter
advanced by `n` (mod `2 ^ 64`). -/
theorem sendN_spec (digest : String → String) (to_did : String) (n : Nat) :
    ∀ (m : ChannelMap) (st : ChatChannelState),
      m (digest to_did) = some st → st.seq_no < u64Mod → st.seq_no + n ≤ u64Mod →
      ∃ m' st', sendN digest m to_did n = some (List.range' st.seq_no n, m') ∧
        m' (digest to_did) = some st' ∧ st'.seq_no = (st.seq_no + n) % u64Mod := by
  induction n with
  | zero =>
    intro m st hm hlt _
    refine ⟨m, st, by simp [sendN, List.range'], hm, ?_⟩
    simpa using (Nat.mod_eq_of_lt hlt).symm
  | succ n ih =>
    intro m st hm hlt hle
    have hsend : send_message_seq digest m to_did =
        some (st.seq_no,
          mapInsert m (digest to_did) { st with seq_no := (st.seq_no + 1) % u64Mod }) := by
      simp [send_message_seq, hm]
    have hm1 : (mapInsert m (digest to_did) { st with seq_no := (st.seq_no + 1) % u64Mod })
        (digest to_did) = some { st with seq_no := (st.seq_no + 1) % u64Mod } := by
      simp [mapInsert]
    have hpos : 0 < u64Mod := by norm_num [u64Mod]
    rcases Nat.lt_or_ge (st.seq_no + 1) u64Mod with hcase | hcase
    · have hmodeq : (st.seq_no + 1) % u64Mod = st.seq_no + 1 := Nat.mod_eq_of_lt hcase
      rw [hmodeq] at hsend hm1
      obtain ⟨m', st', hrun, hlook, hseq⟩ :=
        ih (mapInsert m (digest to_did) { st with seq_no := st.seq_no + 1 })
          { st with seq_no := st.seq_no + 1 } hm1 hcase (by simp; omega)
      refine ⟨m', st', ?_, hlook, ?_⟩
      · simp [sendN, hsend, hrun, List.range'_succ]
      · rw [hseq]
        show (st.seq_no + 1 + n) % u64Mod = (st.seq_no + (n + 1)) % u64Mod
        congr 1
        omega
    · have hn : n = 0 := by omega
      subst hn
      refine ⟨mapInsert m (digest to_did) { st with seq_no := (st.seq_no + 1) % u64Mod },
        { st with seq_no := (st.seq_no + 1) % u64Mod }, ?_, hm1, by simp⟩
      simp [sendN, hsend, List.range']

/-- C1: every `send_message` to a fixed remote party atomically reads the
current `seq_no` under the owner's lock, attaches exactly that value as the
outbound `seqNo`, and stores the counter incremented by exactly one; from a
fresh Conversation State record (counter 0), `N` consecutive sends
(`N ≤ 2 ^ 64`) carry exactly the `seqNo` values `0, 1, ..., N - 1` in send
order, with no value skipped or repeated, leaving the counter at `N`. -/
theorem send_message_seqNos_exact_range (digest : String → String) (to_did : String)
    (m : ChannelMap) (st : ChatChannelState) (N : Nat)
    (hm : m (digest to_did) = some st) (h0 : st.seq_no = 0) (hN : N ≤ u64Mod) :
    (∀ (m1 : ChannelMap) (st1 : ChatChannelState), m1 (digest to_did) = some st1 →
        send_message_seq digest m1 to_did =
          some (st1.seq_no,
            mapInsert m1 (digest to_did) { st1 with seq_no := (st1.seq_no + 1) % u64Mod })) ∧
    ∃ m' st', sendN digest m to_did N = some (List.range N, m') ∧
      m' (digest to_did) = some st' ∧ st'.seq_no = N % u64Mod := by
  constructor
  · intro m1 st1 h1
    simp [send_message_seq, h1]
  · obtain ⟨m', st', hrun, hlook, hseq⟩ :=
      sendN_spec digest to_did N m st hm (by rw [h0]; norm_num [u64Mod]) (by omega)
    refine ⟨m', st', ?_, hlook, ?_⟩
    · rw [List.range_eq_range']
      rw [h0] at hrun
      exact hrun
    · rw [hseq, h0]
      simp

/-- Witness for C1 at a concrete fresh record and `N = 3`: the attached
`seqNo` values are `[0, 1, 2]`. -/
theorem send_message_seqNos_exact_range_witness :
    (∀ (m1 : ChannelMap) (st1 : ChatChannelState), m1 ((fun s => s) "did:x") = some st1 →
        send_message_seq (fun s => s) m1 "did:x" =
          some (st1.seq_no,
            mapInsert m1 ((fun s => s) "did:x")
              { st1 with seq_no := (st1.seq_no + 1) % u64Mod })) ∧
    ∃ m' st',
      sendN (fun s => s) (mapInsert mapEmpty "did:x" ChatChannelState.default) "did:x" 3 =
        some (List.range 3, m') ∧
      m' ((fun s => s) "did:x") = some st' ∧ st'.seq_no = 3 % u64Mod :=
  send_message_seqNos_exact_range (fun s => s) "did:x"
    (mapInsert mapEmpty "did:x" ChatChannelState.default) ChatChannelState.default 3
    (by simp [mapInsert]) rfl (by norm_num [u64Mod])

/-- C8: the read-then-increment of `message_seq_no` in `send_message` and of
`activity_seq_no` in `i_am_thinking` fails (Rust: panics on `unwrap`) exactly
when no Conversation State record exists under the hash of the destination;
when the caller has established a record, the operation returns the previous
counter value and stores the counter incremented by one. -/
theorem seq_counter_contract (digest : String → String) (m : ChannelMap) (to_did : String) :
    (m (digest to_did) = none →
       send_message_seq digest m to_did = none ∧
       i_am_thinking_seq digest m to_did = none) ∧
    ∀ st : ChatChannelState, m (digest to_did) = some st →
       (∃ m', send_message_seq digest m to_did = some (st.seq_no, m') ∧
          m' (digest to_did) = some { st with seq_no := (st.seq_no + 1) % u64Mod }) ∧
       (∃ m', i_am_thinking_seq digest m to_did = some (st.activity_seq_no, m') ∧
          m' (digest to_did) =
            some { st with activity_seq_no := (st.activity_seq_no + 1) % u64Mod }) := by
  constructor
  · intro h
    exact ⟨by simp [send_message_seq, h], by simp [i_am_thinking_seq, h]⟩
  · intro st h
    constructor
    · refine ⟨mapInsert m (digest to_did)
          { st with seq_no := (st.seq_no + 1) % u64Mod }, ?_, ?_⟩
      · simp [send_message_seq, h]
      · simp [mapInsert]
    · refine ⟨mapInsert m (digest to_did)
          { st with activity_seq_no := (st.activity_seq_no + 1) % u64Mod }, ?_, ?_⟩
      · simp [i_am_thinking_seq, h]
      · simp [mapInsert]

/-- Witness for C8: on the empty store both operations fail; on a store
holding a record with counters 5 and 7 they return 5 resp. 7 and store 6
resp. 8. -/
theorem seq_counter_contract_witness :
    (send_message_seq (fun s => s) mapEmpty "did:a" = none ∧
     i_am_thinking_seq (fun s => s) mapEmpty "did:a" = none) ∧
    ((∃ m', send_message_seq (fun s => s)
          (mapInsert mapEmpty "did:x" ⟨"did:x", "did:x", 7, 5⟩) "did:x" =
          some ((⟨"did:x", "did:x", 7, 5⟩ : ChatChannelState).seq_no, m') ∧
        m' ((fun s => s) "did:x") =
          some { (⟨"did:x", "did:x", 7, 5⟩ : ChatChannelState) with
                   seq_no := ((⟨"did:x", "did:x", 7, 5⟩ : ChatChannelState).seq_no + 1) % u64Mod }) ∧
     (∃ m', i_am_thinking_seq (fun s => s)
          (mapInsert mapEmpty "did:x" ⟨"did:x", "did:x", 7, 5⟩) "did:x" =
          some ((⟨"did:x", "did:x", 7, 5⟩ : ChatChannelState).activity_seq_no, m') ∧
        m' ((fun s => s) "did:x") =
          some { (⟨"did:x", "did:x", 7, 5⟩ : ChatChannelState) with
                   activity_seq_no :=
                     ((⟨"did:x", "did:x", 7, 5⟩ : ChatChannelState).activity_seq_no + 1) % u64Mod })) :=
  ⟨(seq_counter_contract (fun s => s) mapEmpty "did:a").1 rfl,
   (seq_counter_contract (fun s => s)
      (mapInsert mapEmpty "did:x" ⟨"did:x", "did:x", 7, 5⟩) "did:x").2
     ⟨"did:x", "did:x", 7, 5⟩ (by simp [mapInsert])⟩

/-- C3: a connection-setup event removes the Conversation State record keyed
by the hash of the old sender identity and inserts, under the hash of the
newly negotiated identity, a record whose `message_seq_no` and
`activity_seq_no` are both zero — regardless of what the map held before — in
both the model-worker handler and the concierge handler. -/
theorem connection_setup_fresh_counters (digest : String → String) (m : ChannelMap)
    (from_did new_did : String) (hne : digest from_did ≠ digest new_did) :
    (worker_connection_setup digest m from_did new_did) (digest new_did) =
      some { remote_did := new_did, remote_did_hash := digest new_did,
             activity_seq_no := 0, seq_no := 0 } ∧
    (worker_connection_setup digest m from_did new_did) (digest from_did) = none ∧
    (concierge_connection_setup digest m from_did new_did) (digest new_did) =
      some { remote_did := new_did, remote_did_hash := digest new_did,
             activity_seq_no := 0, seq_no := 0 } ∧
    (concierge_connection_setup digest m from_did new_did) (digest from_did) = none := by
  have hworker : ∀ m1 : ChannelMap,
      (worker_connection_setup digest m1 from_did new_did) (digest new_did) =
        some { remote_did := new_did, remote_did_hash := digest new_did,
               activity_seq_no := 0, seq_no := 0 } ∧
      (worker_connection_setup digest m1 from_did new_did) (digest from_did) = none := by
    intro m1
    constructor
    · simp [worker_connection_setup, mapInsert, ChatChannelState.default]
    · simp [worker_connection_setup, mapInsert, mapRemove, hne]
  refine ⟨(hworker m).1, (hworker m).2, ?_, ?_⟩
  · unfold concierge_connection_setup
    cases m (digest from_did) <;> exact (hworker _).1
  · unfold concierge_connection_setup
    cases m (digest from_did) <;> exact (hworker _).2

/-- Witness for C3 at a concrete map already holding non-zero counters for
both the old and the new hash. -/
theorem connection_setup_fresh_counters_witness :
    (worker_connection_setup (fun s => s)
        (mapInsert (mapInsert mapEmpty "did:old" ⟨"did:old", "did:old", 4, 9⟩)
          "did:new" ⟨"did:new", "did:new", 2, 3⟩) "did:old" "did:new") ((fun s => s) "did:new") =
      some { remote_did := "did:new", remote_did_hash := (fun s => s) "did:new",
             activity_seq_no := 0, seq_no := 0 } ∧
    (worker_connection_setup (fun s => s)
        (mapInsert (mapInsert mapEmpty "did:old" ⟨"did:old", "did:old", 4, 9⟩)
          "did:new" ⟨"did:new", "did:new", 2, 3⟩) "did:old" "did:new") ((fun s => s) "did:old") = none ∧
    (concierge_connection_setup (fun s => s)
        (mapInsert (mapInsert mapEmpty "did:old" ⟨"did:old", "did:old", 4, 9⟩)
          "did:new" ⟨"did:new", "did:new", 2, 3⟩) "did:old" "did:new") ((fun s => s) "did:new") =
      some { remote_did := "did:new", remote_did_hash := (fun s => s) "did:new",
             activity_seq_no := 0, seq_no := 0 } ∧
    (concierge_connection_setup (fun s => s)
        (mapInsert (mapInsert mapEmpty "did:old" ⟨"did:old", "did:old", 4, 9⟩)
          "did:new" ⟨"did:new", "did:new", 2, 3⟩) "did:old" "did:new") ((fun s => s) "did:old") = none :=
  connection_setup_fresh_counters (fun s => s)
    (mapInsert (mapInsert mapEmpty "did:old" ⟨"did:old", "did:old", 4, 9⟩)
      "did:new" ⟨"did:new", "did:new", 2, 3⟩) "did:old" "did:new" (by decide)

/-- C4: while the thinking end-marker has not been seen (`think_flag` still
set) every incoming fragment is discarded — the buffer is unchanged and
nothing is sent — including the fragment that contains the marker itself,
which only flips the flag for subsequent fragments; concretely, the fragment
sequence `["<think>", "ignored", "</think>", "Hello", " world.", "\n\n"]`
followed by stream end produces exactly one outbound chat message, with text
`"Hello world."`, and no earlier chat message. -/
theorem think_marker_suppression (st : PromptState) (frag : String)
    (hth : st.think_flag = true) :
    ((processFragment st frag).1.output = st.output ∧
     (processFragment st frag).2 = [] ∧
     (processFragment st frag).1.think_flag = !(rustContains frag thinkEndMarker)) ∧
    chatsOf (handle_prompt
        [PromptEvent.fragments ["<think>"], PromptEvent.fragments ["ignored"],
         PromptEvent.fragments ["</think>"], PromptEvent.fragments ["Hello"],
         PromptEvent.fragments [" world."], PromptEvent.fragments ["\n\n"],
         PromptEvent.streamEnd]) = [Effect.chat "Hello world."] := by
  constructor
  · cases hc : rustContains frag thinkEndMarker <;> simp [processFragment, hth, hc]
  · decide

/-- Witness for C4: the fragment holding the marker itself, arriving while
suppressed, changes no buffer and sends nothing, yet clears the flag. -/
theorem think_marker_suppression_witness :
    ((processFragment promptInit "</think>").1.output = promptInit.output ∧
     (processFragment promptInit "</think>").2 = [] ∧
     (processFragment promptInit "</think>").1.think_flag =
       !(rustContains "</think>" thinkEndMarker)) ∧
    chatsOf (handle_prompt
        [PromptEvent.fragments ["<think>"], PromptEvent.fragments ["ignored"],
         PromptEvent.fragments ["</think>"], PromptEvent.fragments ["Hello"],
         PromptEvent.fragments [" world."], PromptEvent.fragments ["\n\n"],
         PromptEvent.streamEnd]) = [Effect.chat "Hello world."] :=
  think_marker_suppression promptInit "</think>" rfl

/-- C5: once the flag is visible, a bare paragraph break (a fragment that is
exactly two newlines) is dropped with the buffer unchanged; a paragraph break
immediately preceded by the sentence terminator (the fragment exactly
`".\n\n"`) is appended to the buffer, the whole buffer is flushed as exactly
one outbound chat message and the buffer is cleared; every other fragment is
appended to the buffer with nothing sent. -/
theorem visible_fragment_cases (st : PromptState) (frag : String)
    (hv : st.think_flag = false) :
    (frag = "\n\n" → processFragment st frag = (st, [])) ∧
    (frag = ".\n\n" →
      (processFragment st frag).1.output = "" ∧
      (processFragment st frag).2 = [Effect.chat (st.output ++ frag)]) ∧
    (frag ≠ "\n\n" → frag ≠ ".\n\n" →
      (processFragment st frag).1.output = st.output ++ frag ∧
      (processFragment st frag).2 = []) := by
  refine ⟨?_, ?_, ?_⟩
  · intro h
    simp [processFragment, hv, h]
  · intro h
    subst h
    simp [processFragment, hv]
  · intro h1 h2
    cases hc : rustContains frag thinkEndMarker <;>
      simp [processFragment, hv, h1, h2, hc]

/-- Witness for C5 at a visible state with buffer "Hi" and the three fragment
shapes. -/
theorem visible_fragment_cases_witness :
    ((".\n\n" : String) = "\n\n" →
      processFragment { think_flag := false, output := "Hi" } ".\n\n" =
        ({ think_flag := false, output := "Hi" }, [])) ∧
    ((".\n\n" : String) = ".\n\n" →
      (processFragment { think_flag := false, output := "Hi" } ".\n\n").1.output = "" ∧
      (processFragment { think_flag := false, output := "Hi" } ".\n\n").2 =
        [Effect.chat ("Hi" ++ ".\n\n")]) ∧
    ((".\n\n" : String) ≠ "\n\n" → (".\n\n" : String) ≠ ".\n\n" →
      (processFragment { think_flag := false, output := "Hi" } ".\n\n").1.output =
        "Hi" ++ ".\n\n" ∧
      (processFragment { think_flag := false, output := "Hi" } ".\n\n").2 = []) := by
  have h := visible_fragment_cases { think_flag := false, output := "Hi" } ".\n\n" rfl
  simpa using h

/-- Helper for C2: events that do not break the select loop compose — running
the loop on `pre ++ rest` first runs `pre`, accumulating its effects, then
continues with `rest` from the resulting state. -/
theorem runLoop_append (pre : List PromptEvent) :
    ∀ (st st1 : PromptState) (effs1 : List Effect) (rest : List PromptEvent),
      (∀ e ∈ pre, nonBreaking e = true) →
      runLoop st pre = (st1, effs1) →
      runLoop st (pre ++ rest) =
        ((runLoop st1 rest).1, effs1 ++ (runLoop st1 rest).2) := by
  induction pre with
  | nil =>
    intro st st1 effs1 rest _ hrun
    simp only [runLoop] at hrun
    injection hrun with h1 h2
    subst h1
    subst h2
    simp
  | cons e pre ih =>
    intro st st1 effs1 rest hnb hrun
    have he : nonBreaking e = true := hnb e (by simp)
    have hpre : ∀ x ∈ pre, nonBreaking x = true := fun x hx => hnb x (by simp [hx])
    cases e with
    | timeout => simp [nonBreaking] at he
    | streamError => simp [nonBreaking] at he
    | streamEnd => simp [nonBreaking] at he
    | tick =>
      rcases hp : runLoop st pre with ⟨sa, ea⟩
      have hih := ih st sa ea rest hpre hp
      simp only [runLoop, hp] at hrun
      injection hrun with h1 h2
      subst h1
      subst h2
      simp [runLoop, hih]
    | fragments batch =>
      rcases hb : processFragments st batch with ⟨sb, eb⟩
      rcases hp : runLoop sb pre with ⟨sa, ea⟩
      have hih := ih sb sa ea rest hpre hp
      simp only [runLoop, hb, hp] at hrun
      injection hrun with h1 h2
      subst h1
      subst h2
      simp [runLoop, hb, hih]

/-- C2 counterexample: on a run in which the idle timeout fires first (trace
consisting of the timeout wake-up alone), the timed-out message is NOT sent in
place of the normal flush — the code `break`s out of the loop and then still
executes the unconditional final `send_message(output)`, so the destination
receives the timed-out chat message followed by a flush of the (here empty)
buffer: two chat messages, not one. -/
theorem chunker_timeout_counterexample :
    chatsOf (handle_prompt [PromptEvent.timeout]) ≠ [Effect.chat timeoutText] ∧
    chatsOf (handle_prompt [PromptEvent.timeout]) =
      [Effect.chat timeoutText, Effect.chat ""] := by
  decide

/-- C2 amended: if the idle timeout fires before the generation stream ends,
the chunker sends the distinct timed-out chat message and exits its loop, but
the normal final flush still follows it; for a stream that never completes a
sentence (no chat message emitted while the loop runs), the destination
receives exactly one timed-out message after the idle duration, followed by
one final flush carrying the accumulated (possibly empty) buffer — and no
sentence-flush message before the timeout. -/
theorem chunker_timeout_behavior (pre : List PromptEvent) (st1 : PromptState)
    (effs1 : List Effect)
    (hnb : ∀ e ∈ pre, nonBreaking e = true)
    (hrun : runLoop promptInit pre = (st1, effs1))
    (hnochat : chatsOf effs1 = []) :
    chatsOf (handle_prompt (pre ++ [PromptEvent.timeout])) =
      [Effect.chat timeoutText, Effect.chat st1.output] := by
  have h := runLoop_append pre promptInit st1 effs1 [PromptEvent.timeout] hnb hrun
  simp only [chatsOf] at hnochat
  simp [handle_prompt, h, runLoop, chatsOf, List.filter_append, hnochat]

/-- Witness for the amended C2: the marker fragment then a sentence-free
fragment, then the timeout — one timed-out message, one flush of "Hi". -/
theorem chunker_timeout_behavior_witness :
    chatsOf (handle_prompt
        ([PromptEvent.fragments ["</think>"], PromptEvent.fragments ["Hi"]] ++
          [PromptEvent.timeout])) =
      [Effect.chat timeoutText,
       Effect.chat ({ think_flag := false, output := "Hi" } : PromptState).output] :=
  chunker_timeout_behavior
    [PromptEvent.fragments ["</think>"], PromptEvent.fragments ["Hi"]]
    { think_flag := false, output := "Hi" } [] (by decide) (by decide) (by decide)

/-- C6: a received chat message whose body parses and whose attachments field
is non-null produces exactly the delivery acknowledgement plus one fixed
attachments-unsupported chat reply to the sender, and nothing else: the
generation backend is never invoked, the command table is never reached, and
the fixed reply is sent exactly once. -/
theorem attachments_rejected (from_did text : String) :
    handle_chat_message from_did (some text) true =
      [HandlerAction.ackDelivered, HandlerAction.sendChat from_did attachmentsReply] ∧
    (∀ p, HandlerAction.invokeBackend p ∉ handle_chat_message from_did (some text) true) ∧
    (∀ c, HandlerAction.invokeCommand c ∉ handle_chat_message from_did (some text) true) ∧
    (handle_chat_message from_did (some text) true).count
      (HandlerAction.sendChat from_did attachmentsReply) = 1 := by
  refine ⟨rfl, ?_, ?_, ?_⟩
  · intro p
    simp [handle_chat_message]
  · intro c
    simp [handle_chat_message]
  · simp [handle_chat_message, List.count_cons]

/-- Witness for C6 at a concrete sender and prompt text. -/
theorem attachments_rejected_witness :
    handle_chat_message "did:peer:alice" (some "hello there") true =
      [HandlerAction.ackDelivered,
       HandlerAction.sendChat "did:peer:alice" attachmentsReply] ∧
    (∀ p, HandlerAction.invokeBackend p ∉
      handle_chat_message "did:peer:alice" (some "hello there") true) ∧
    (∀ c, HandlerAction.invokeCommand c ∉
      handle_chat_message "did:peer:alice" (some "hello there") true) ∧
    (handle_chat_message "did:peer:alice" (some "hello there") true).count
      (HandlerAction.sendChat "did:peer:alice" attachmentsReply) = 1 :=
  attachments_rejected "did:peer:alice" "hello there"

/-- C9: a live-channel message with a sender and a destination among the
worker's activated profiles is dispatched to the handler and then deleted
from the transport regardless of the handler's outcome — for both a
succeeding and a failing handler the step yields (no panic, the loop
continues) the dispatch followed by exactly one transport deletion; a
malformed chat-message body makes the handler acknowledge, report the parse
error and return an error, yet the message is still consumed. -/
theorem worker_consumes_regardless (digest : String → String) (channel : ChannelMap)
    (activated : List String) (from_did to_did : String) (rest : List String)
    (handler_ok : Bool) (hact : activated.contains to_did = true) :
    (∃ channel1,
      model_worker_receive digest channel activated
          { from_did := some from_did, to_dids := some (to_did :: rest) } handler_ok =
        some (channel1,
          [WorkerAction.dispatchMessage handler_ok, WorkerAction.deleteFromTransport]) ∧
      (∀ acts, model_worker_receive digest channel activated
          { from_did := some from_did, to_dids := some (to_did :: rest) } handler_ok =
          some (channel1, acts) →
        acts.count WorkerAction.deleteFromTransport = 1)) ∧
    handle_chat_message from_did none false =
      [HandlerAction.ackDelivered, HandlerAction.parseErrorReported] := by
  have hmem : to_did ∈ activated := by simpa using hact
  constructor
  · refine ⟨?_, ?_, ?_⟩
    · exact match channel (digest from_did) with
        | some _ => channel
        | none =>
            mapInsert channel (digest from_did)
              { ChatChannelState.default with
                  remote_did := from_did, remote_did_hash := digest from_did }
    · cases h : channel (digest from_did) <;>
        simp [model_worker_receive, hmem, h]
    · intro acts hacts
      cases h : channel (digest from_did) <;>
        simp [model_worker_receive, hmem, h] at hacts <;>
        simp [← hacts, List.count_cons]
  · rfl

/-- Witness for C9 with a concrete activated profile, for a failing handler. -/
theorem worker_consumes_regardless_witness :
    (∃ channel1,
      model_worker_receive (fun s => s) mapEmpty ["did:model"]
          { from_did := some "did:peer:bob", to_dids := some ["did:model"] } false =
        some (channel1,
          [WorkerAction.dispatchMessage false, WorkerAction.deleteFromTransport]) ∧
      (∀ acts, model_worker_receive (fun s => s) mapEmpty ["did:model"]
          { from_did := some "did:peer:bob", to_dids := some ["did:model"] } false =
          some (channel1, acts) →
        acts.count WorkerAction.deleteFromTransport = 1)) ∧
    handle_chat_message "did:peer:bob" none false =
      [HandlerAction.ackDelivered, HandlerAction.parseErrorReported] :=
  worker_consumes_regardless (fun s => s) mapEmpty ["did:model"] "did:peer:bob"
    "did:model" [] false (by decide)

/-- C10: a live-channel message with a sender but an absent or empty `to`
list makes the worker's receive loop panic on `unwrap` (modelled as `none`),
aborting the worker task — in contrast to a missing sender or an unknown
destination profile, both of which are skipped with a warning and leave the
loop running. -/
theorem missing_to_panics (digest : String → String) (channel : ChannelMap)
    (activated : List String) (from_did : String) (handler_ok : Bool) :
    model_worker_receive digest channel activated
        { from_did := some from_did, to_dids := none } handler_ok = none ∧
    model_worker_receive digest channel activated
        { from_did := some from_did, to_dids := some [] } handler_ok = none ∧
    (∀ tos, model_worker_receive digest channel activated
        { from_did := none, to_dids := tos } handler_ok =
      some (channel, [WorkerAction.warnSkip])) ∧
    (∀ to_did rest, activated.contains to_did = false →
      ∃ channel1, model_worker_receive digest channel activated
          { from_did := some from_did, to_dids := some (to_did :: rest) } handler_ok =
        some (channel1, [WorkerAction.warnSkip])) := by
  refine ⟨?_, ?_, ?_, ?_⟩
  · cases h : channel (digest from_did) <;> simp [model_worker_receive, h]
  · cases h : channel (digest from_did) <;> simp [model_worker_receive, h]
  · intro tos
    simp [model_worker_receive]
  · intro to_did rest hact
    have hnmem : to_did ∉ activated := by simpa using hact
    refine ⟨?_, ?_⟩
    · exact match channel (digest from_did) with
        | some _ => channel
        | none =>
            mapInsert channel (digest from_did)
              { ChatChannelState.default with
                  remote_did := from_did, remote_did_hash := digest from_did }
    · cases h : channel (digest from_did) <;>
        simp [model_worker_receive, hnmem, h]

/-- Witness for C10: concrete sender with `to: None` and `to: Some([])` both
panic; an anonymous message and an unknown destination are merely skipped. -/
theorem missing_to_panics_witness :
    model_worker_receive (fun s => s) mapEmpty ["did:model"]
        { from_did := some "did:peer:bob", to_dids := none } true = none ∧
    model_worker_receive (fun s => s) mapEmpty ["did:model"]
        { from_did := some "did:peer:bob", to_dids := some [] } true = none ∧
    (∀ tos, model_worker_receive (fun s => s) mapEmpty ["did:model"]
        { from_did := none, to_dids := tos } true =
      some (mapEmpty, [WorkerAction.warnSkip])) ∧
    (∀ to_did rest, (["did:model"] : List String).contains to_did = false →
      ∃ channel1, model_worker_receive (fun s => s) mapEmpty ["did:model"]
          { from_did := some "did:peer:bob", to_dids := some (to_did :: rest) } true =
        some (channel1, [WorkerAction.warnSkip])) :=
  missing_to_panics (fun s => s) mapEmpty ["did:model"] "did:peer:bob" true

/-- Helper for C7: inserting into the worker registry preserves distinctness
of the registered names (`HashMap` keys are unique). -/
theorem registryInsert_nodup (reg : List String) (name : String) (h : reg.Nodup) :
    (registryInsert reg name).Nodup := by
  cases hc : reg.contains name with
  | false =>
      have hnm : name ∉ reg := by simpa using hc
      simp [registryInsert, List.nodup_cons, hnm, h]
  | true =>
      have hm : name ∈ reg := by simpa using hc
      simp [registryInsert, hm, h]

/-- Helper for C7: the concierge loop keeps the worker registry duplicate-free. -/
theorem conciergeLoop_nodup (events : List ConciergeEvent) :
    ∀ reg : List String, reg.Nodup → (conciergeLoop reg events).1.Nodup := by
  induction events with
  | nil =>
    intro reg h
    simpa [conciergeLoop] using h
  | cons e rest ih =>
    intro reg h
    cases e with
    | modelAction => simpa [conciergeLoop] using ih reg h
    | commandExit => simpa [conciergeLoop] using h
    | commandStartModel name configured =>
      cases configured with
      | false => simpa [conciergeLoop] using ih reg h
      | true =>
        simpa [conciergeLoop] using ih (registryInsert reg name) (registryInsert_nodup reg name h)
    | inboundMessage => simpa [conciergeLoop] using ih reg h
    | interrupt r => simpa [conciergeLoop] using h

/-- C7: whenever the concierge select loop terminates (on the `Exit` command
or an external interrupt), the run sends `Exit` to every worker registered at
that moment — exactly once per worker — then persists the state as the last
action, and returns the interrupt reason to the caller. -/
theorem supervisor_exit_behavior (events : List ConciergeEvent) (reg : List String)
    (r : Interrupted) (h : conciergeLoop [] events = (reg, some r)) :
    concierge_run events =
      some (reg.map ConciergeAction.sendExitTo ++ [ConciergeAction.saveState], r) ∧
    (∀ w ∈ reg,
      (reg.map ConciergeAction.sendExitTo ++ [ConciergeAction.saveState]).count
        (ConciergeAction.sendExitTo w) = 1) ∧
    (reg.map ConciergeAction.sendExitTo ++ [ConciergeAction.saveState]).getLast? =
      some ConciergeAction.saveState := by
  have hnodup : reg.Nodup := by
    have hh := conciergeLoop_nodup events [] List.nodup_nil
    rw [h] at hh
    exact hh
  refine ⟨?_, ?_, ?_⟩
  · simp [concierge_run, h]
  · intro w hw
    have hinj : Function.Injective ConciergeAction.sendExitTo := by
      intro a b hab
      injection hab
    rw [List.count_append, List.count_map_of_injective _ _ hinj]
    have h1 : reg.count w = 1 := List.count_eq_one_of_mem hnodup hw
    simp [h1, List.count_cons]
  · simp

/-- Witness for C7: start one model, then `Exit` — the model receives exactly
one `Exit`, the state save is the final action, the reason is `UserInt`. -/
theorem supervisor_exit_behavior_witness :
    concierge_run
        [ConciergeEvent.commandStartModel "llama" true, ConciergeEvent.commandExit] =
      some ((["llama"] : List String).map ConciergeAction.sendExitTo ++
        [ConciergeAction.saveState], Interrupted.userInt) ∧
    (∀ w ∈ (["llama"] : List String),
      ((["llama"] : List String).map ConciergeAction.sendExitTo ++
        [ConciergeAction.saveState]).count (ConciergeAction.sendExitTo w) = 1) ∧
    ((["llama"] : List String).map ConciergeAction.sendExitTo ++
      [ConciergeAction.saveState]).getLast? = some ConciergeAction.saveState :=
  supervisor_exit_behavior
    [ConciergeEvent.commandStartModel "llama" true, ConciergeEvent.commandExit]
    ["llama"] Interrupted.userInt (by decide)
